import Mathlib

/-!
Shallow embedding of the DV360 MCP server (`server.py`) report pipeline and
entity-list request builders, with theorems checking the natural-language
specification against the code.

Python strings are modelled as `List Char` (ASCII content; on the ASCII
fragment Python's `str.isdigit`, `int`, `float`, `str.strip`, `str.lower`
coincide with the character-level models below).  Fallible Python code
(exceptions) is modelled with `Option`/`Except`; the remote Bid Manager /
Display & Video services are modelled as oracles (structures of functions).
-/

/-- Python strings, modelled as lists of characters. -/
abbrev PyStr := List Char

/-- Coerce a Lean string literal to the `PyStr` model. -/
def pstr (s : String) : PyStr := s.data

/-- Number of occurrences of a character in a string. -/
def countCh (c : Char) : PyStr → Nat
  | [] => 0
  | x :: xs => (if x = c then 1 else 0) + countCh c xs

/-- Embeds Python `s.replace(c, "", 1)` for a one-character pattern `c`:
removes the first occurrence of `c`, if any. -/
def removeFirst (c : Char) : PyStr → PyStr
  | [] => []
  | x :: xs => if x = c then xs else x :: removeFirst c xs

/-- Embeds Python `s.isdigit()` (ASCII): nonempty and all decimal digits. -/
def pyIsdigit (l : PyStr) : Bool := !l.isEmpty && l.all Char.isDigit

theorem countCh_pos_iff {c : Char} {l : PyStr} : 0 < countCh c l ↔ c ∈ l := by
  induction l with
  | nil => simp [countCh]
  | cons x xs ih =>
    by_cases hx : x = c
    · subst hx; simp [countCh]
    · simp [countCh, hx, ih, Ne.symm hx]

theorem countCh_eq_zero {c : Char} {l : PyStr} : countCh c l = 0 ↔ c ∉ l := by
  rw [← countCh_pos_iff]; omega

theorem removeFirst_of_not_mem {c : Char} {l : PyStr} (h : c ∉ l) :
    removeFirst c l = l := by
  induction l with
  | nil => rfl
  | cons x xs ih =>
    simp only [List.mem_cons, not_or] at h
    simp [removeFirst, Ne.symm h.1, ih h.2]

theorem mem_of_mem_removeFirst {a c : Char} {l : PyStr}
    (h : a ∈ removeFirst c l) : a ∈ l := by
  induction l with
  | nil => simp [removeFirst] at h
  | cons x xs ih =>
    by_cases hx : x = c
    · simp only [removeFirst, if_pos hx] at h
      exact List.mem_cons_of_mem x h
    · simp only [removeFirst, if_neg hx, List.mem_cons] at h ⊢
      exact h.imp id ih

theorem mem_removeFirst_of_ne {a c : Char} (hne : a ≠ c) {l : PyStr} :
    a ∈ removeFirst c l ↔ a ∈ l := by
  induction l with
  | nil => simp [removeFirst]
  | cons x xs ih =>
    by_cases hx : x = c
    · subst hx
      simp [removeFirst, hne]
    · simp [removeFirst, hx, List.mem_cons, ih]

theorem countCh_removeFirst_self {c : Char} {l : PyStr} (h : c ∈ l) :
    countCh c (removeFirst c l) + 1 = countCh c l := by
  induction l with
  | nil => simp at h
  | cons x xs ih =>
    by_cases hx : x = c
    · subst hx; simp [removeFirst, countCh, Nat.add_comm]
    · have hc : c ∈ xs := by
        rcases List.mem_cons.1 h with h1 | h1
        · exact absurd h1.symm hx
        · exact h1
      simp [removeFirst, countCh, hx, ← ih hc]

theorem countCh_removeFirst_of_ne {d c : Char} (h : d ≠ c) {l : PyStr} :
    countCh d (removeFirst c l) = countCh d l := by
  induction l with
  | nil => rfl
  | cons x xs ih =>
    by_cases hx : x = c
    · subst hx
      simp [removeFirst, countCh, Ne.symm h]
    · simp [removeFirst, countCh, hx, ih]

theorem pyIsdigit_iff {l : PyStr} :
    pyIsdigit l = true ↔ l ≠ [] ∧ ∀ a ∈ l, a.isDigit = true := by
  simp [pyIsdigit, List.all_eq_true, List.isEmpty_iff]

theorem countCh_eq_zero_of_all_digit {c : Char} (hc : ¬ c.isDigit = true)
    {l : PyStr} (h : ∀ a ∈ l, a.isDigit = true) : countCh c l = 0 :=
  countCh_eq_zero.2 fun hm => hc (h c hm)

/-- Characters that can appear in a string passing the numeric guard:
decimal digits, the dot, and the minus sign. -/
def okChar (c : Char) : Bool := c.isDigit || c == '.' || c == '-'

/-- Inferred cell values of the Report File Decoder (`parse_csv_to_json`).
A Python float is represented by its source literal; the IEEE value is not
needed by any claim. -/
inductive PyVal where
  | vnone
  | vint (n : Int)
  | vfloat (lit : PyStr)
  | vstr (s : PyStr)
deriving DecidableEq

/-- Numeric value of a digit string (embeds Python `int` on digit strings). -/
def digitsVal (l : PyStr) : Nat := l.foldl (fun n c => 10 * n + (c.toNat - 48)) 0

/-- Signed value of an integer literal (optional leading minus). -/
def intLitVal (l : PyStr) : Int :=
  match l with
  | [] => 0
  | c :: t => if c = '-' then -(digitsVal t : Int) else (digitsVal (c :: t) : Int)

/-- Acceptance condition of Python `int(value)` restricted to the strings that
can reach the call in `parse_csv_to_json` (digits, dots, minus signs):
an optional leading minus followed by a nonempty run of digits. -/
def pyIntAccepts (l : PyStr) : Bool :=
  match l with
  | [] => false
  | c :: t => if c = '-' then pyIsdigit t else pyIsdigit (c :: t)

/-- Embeds Python `int(value)` with `ValueError` as `none`, restricted to the
strings that can reach the call in `parse_csv_to_json`. -/
def pyIntParse (l : PyStr) : Option Int :=
  if pyIntAccepts l then some (intLitVal l) else none

/-- Drop a leading minus sign, if any. -/
def stripSign (l : PyStr) : PyStr :=
  match l with
  | [] => []
  | c :: t => if c = '-' then t else c :: t

/-- Acceptance condition of Python `float(value)` restricted to the strings
that can reach the call in `parse_csv_to_json` (digits, dots, minus signs):
an optional leading minus, then a nonempty run of digits and at most one dot
containing at least one digit. -/
def pyFloatAccepts (l : PyStr) : Bool :=
  !(stripSign l).isEmpty && (stripSign l).all (fun c => c.isDigit || c == '.')
    && decide (countCh '.' (stripSign l) ≤ 1) && (stripSign l).any Char.isDigit

/-- Embeds the numeric-candidate test of `parse_csv_to_json`, line 186:
`value.replace('.', '', 1).replace('-', '', 1).isdigit()`. -/
def numericGuard (l : PyStr) : Bool :=
  pyIsdigit (removeFirst '-' (removeFirst '.' l))

/-- Per-cell type inference of `parse_csv_to_json` (lines 183-193), translated
from the source: `None`/empty cell, then the numeric guard, then `int(value)`
when no dot occurs and `float(value)` otherwise, each falling back to the
original string on `ValueError`. -/
def inferCell : Option PyStr → PyVal
  | none => .vnone
  | some value =>
    if value.isEmpty then .vnone
    else if numericGuard value then
      if '.' ∈ value then
        if pyFloatAccepts value then .vfloat value else .vstr value
      else
        match pyIntParse value with
        | some n => .vint n
        | none => .vstr value
    else .vstr value

/-- Modelled from the spec: the integer pattern, "optional leading minus,
digits only". -/
def specIntPattern (l : PyStr) : Bool :=
  match l with
  | [] => false
  | c :: t => if c = '-' then pyIsdigit t else pyIsdigit (c :: t)

/-- Modelled from the spec: the decimal pattern, "optional minus, digits,
at most one dot". -/
def specDecPattern (l : PyStr) : Bool :=
  decide (countCh '-' l ≤ 1) && decide (countCh '.' l ≤ 1)
    && l.all okChar && l.any Char.isDigit

/-- Modelled from the spec: the per-cell inference rule of §4.4 — empty makes
null, the integer pattern makes an integer, the decimal pattern makes a float
falling back to the string when the conversion fails, anything else stays a
string. -/
def specInferCell : Option PyStr → PyVal
  | none => .vnone
  | some v =>
    if v.isEmpty then .vnone
    else if specIntPattern v then .vint (intLitVal v)
    else if specDecPattern v then
      if pyFloatAccepts v then .vfloat v else .vstr v
    else .vstr v

theorem numericGuard_iff {l : PyStr} :
    numericGuard l = true ↔ specDecPattern l = true := by
  have hdd : ('.' : Char).isDigit = false := by decide
  have hmd : ('-' : Char).isDigit = false := by decide
  have hne : ('.' : Char) ≠ '-' := by decide
  have hne2 : ('-' : Char) ≠ '.' := by decide
  rw [numericGuard, pyIsdigit_iff]
  simp only [specDecPattern, Bool.and_eq_true, decide_eq_true_eq,
    List.all_eq_true, List.any_eq_true, okChar, Bool.or_eq_true,
    beq_iff_eq]
  constructor
  · rintro ⟨hm, hall⟩
    refine ⟨⟨⟨?_, ?_⟩, ?_⟩, ?_⟩
    · -- at most one minus
      by_contra hcnt
      push_neg at hcnt
      have h1 : '-' ∈ l := countCh_pos_iff.1 (by omega)
      have h2 : countCh '-' (removeFirst '.' l) = countCh '-' l :=
        countCh_removeFirst_of_ne hne2
      have h3 : '-' ∈ removeFirst '.' l := countCh_pos_iff.1 (by omega)
      have h4 := countCh_removeFirst_self h3
      have h5 : '-' ∈ removeFirst '-' (removeFirst '.' l) :=
        countCh_pos_iff.1 (by omega)
      have := hall _ h5
      simp [hmd] at this
    · -- at most one dot
      by_contra hcnt
      push_neg at hcnt
      have h1 : '.' ∈ l := countCh_pos_iff.1 (by omega)
      have h4 := countCh_removeFirst_self h1
      have h3 : '.' ∈ removeFirst '.' l := countCh_pos_iff.1 (by omega)
      have h5 : '.' ∈ removeFirst '-' (removeFirst '.' l) :=
        (mem_removeFirst_of_ne hne).2 h3
      have := hall _ h5
      simp [hdd] at this
    · -- every character is a digit, a dot or a minus
      intro a ha
      by_cases had : a.isDigit
      · exact Or.inl (Or.inl had)
      by_cases hadot : a = '.'
      · exact Or.inl (Or.inr hadot)
      by_cases ham : a = '-'
      · exact Or.inr ham
      · exfalso
        have h1 : a ∈ removeFirst '.' l := (mem_removeFirst_of_ne hadot).2 ha
        have h2 : a ∈ removeFirst '-' (removeFirst '.' l) :=
          (mem_removeFirst_of_ne ham).2 h1
        exact had (hall _ h2)
    · -- at least one digit
      obtain ⟨a, ha⟩ := List.exists_mem_of_ne_nil _ hm
      exact ⟨a, mem_of_mem_removeFirst (mem_of_mem_removeFirst ha),
        hall _ ha⟩
  · rintro ⟨⟨⟨hmc, hpc⟩, hok⟩, d, hdl, hdd'⟩
    have hdigits : ∀ a ∈ removeFirst '-' (removeFirst '.' l),
        a.isDigit = true := by
      intro a ha
      have hal : a ∈ l :=
        mem_of_mem_removeFirst (mem_of_mem_removeFirst ha)
      rcases hok a hal with (had | hadot) | ham
      · exact had
      · exfalso
        subst hadot
        have hzero : countCh '.' (removeFirst '.' l) = 0 := by
          by_cases hmem : '.' ∈ l
          · have := countCh_removeFirst_self hmem
            omega
          · rw [removeFirst_of_not_mem hmem]
            exact countCh_eq_zero.2 hmem
        have : ('.' : Char) ∉ removeFirst '-' (removeFirst '.' l) := by
          rw [mem_removeFirst_of_ne hne]
          exact countCh_eq_zero.1 hzero
        exact this ha
      · exfalso
        subst ham
        have heq : countCh '-' (removeFirst '.' l) = countCh '-' l :=
          countCh_removeFirst_of_ne hne2
        have : ('-' : Char) ∉ removeFirst '-' (removeFirst '.' l) := by
          by_cases hmem : '-' ∈ removeFirst '.' l
          · have := countCh_removeFirst_self hmem
            exact countCh_eq_zero.1 (by omega)
          · rw [removeFirst_of_not_mem hmem]
            exact hmem
        exact this ha
    refine ⟨?_, hdigits⟩
    have hd1 : d ≠ '.' := fun h => by rw [h] at hdd'; simp [hdd] at hdd'
    have hd2 : d ≠ '-' := fun h => by rw [h] at hdd'; simp [hmd] at hdd'
    have : d ∈ removeFirst '-' (removeFirst '.' l) :=
      (mem_removeFirst_of_ne hd2).2 ((mem_removeFirst_of_ne hd1).2 hdl)
    exact List.ne_nil_of_mem this

theorem pyIntAccepts_eq_specIntPattern (l : PyStr) :
    pyIntAccepts l = specIntPattern l := by
  cases l <;> rfl

theorem specIntPattern_no_dot {l : PyStr} (h : specIntPattern l = true) :
    '.' ∉ l := by
  intro hdot
  cases l with
  | nil => simp at hdot
  | cons c t =>
    simp only [specIntPattern] at h
    by_cases hc : c = '-'
    · rw [if_pos hc] at h
      obtain ⟨-, hall⟩ := pyIsdigit_iff.1 h
      rcases List.mem_cons.1 hdot with h1 | h1
      · rw [hc] at h1; exact absurd h1 (by decide)
      · have := hall _ h1
        simp at this
    · rw [if_neg hc] at h
      obtain ⟨-, hall⟩ := pyIsdigit_iff.1 h
      have := hall _ hdot
      simp at this

theorem pyFloatAccepts_eq_of_no_dot {l : PyStr} (h : '.' ∉ l) :
    pyFloatAccepts l = specIntPattern l := by
  have hds : '.' ∉ stripSign l := by
    intro hmem
    apply h
    cases l with
    | nil => simp [stripSign] at hmem
    | cons c t =>
      simp only [stripSign] at hmem
      by_cases hc : c = '-'
      · rw [if_pos hc] at hmem
        exact List.mem_cons_of_mem c hmem
      · rwa [if_neg hc] at hmem
  have hall : (stripSign l).all (fun c => c.isDigit || c == '.')
      = (stripSign l).all Char.isDigit := by
    apply Bool.eq_iff_iff.2
    simp only [List.all_eq_true, Bool.or_eq_true, beq_iff_eq]
    constructor
    · intro h a ha
      rcases h a ha with h1 | h1
      · exact h1
      · exact absurd (h1 ▸ ha) hds
    · intro h a ha
      exact Or.inl (h a ha)
  have hcnt : countCh '.' (stripSign l) = 0 := countCh_eq_zero.2 hds
  have hany : (!(stripSign l).isEmpty && (stripSign l).all Char.isDigit)
      = true → (stripSign l).any Char.isDigit = true := by
    intro hx
    rw [Bool.and_eq_true] at hx
    obtain ⟨a, ha⟩ := List.exists_mem_of_ne_nil _
      (by simpa [List.isEmpty_iff] using hx.1)
    exact List.any_eq_true.2 ⟨a, ha, List.all_eq_true.1 hx.2 _ ha⟩
  have hfl : pyFloatAccepts l = (!(stripSign l).isEmpty
      && (stripSign l).all Char.isDigit) := by
    rw [pyFloatAccepts, hall, hcnt]
    by_cases hx : (!(stripSign l).isEmpty && (stripSign l).all Char.isDigit)
        = true
    · rw [hx, hany hx]
      simp
    · rw [Bool.not_eq_true] at hx
      rw [hx]
      simp only [Bool.and_eq_true, Bool.and_eq_false_iff] at hx ⊢
      rcases hx with hx | hx <;> simp [hx]
  rw [hfl]
  cases l with
  | nil => rfl
  | cons c t =>
    simp only [stripSign, specIntPattern]
    by_cases hc : c = '-' <;> simp [hc, pyIsdigit]

theorem specIntPattern_implies_dec {l : PyStr}
    (h : specIntPattern l = true) : specDecPattern l = true := by
  cases l with
  | nil => simp [specIntPattern] at h
  | cons c t =>
    simp only [specIntPattern] at h
    simp only [specDecPattern, Bool.and_eq_true, decide_eq_true_eq,
      List.all_eq_true, List.any_eq_true]
    by_cases hc : c = '-'
    · rw [if_pos hc] at h
      obtain ⟨hne, hall⟩ := pyIsdigit_iff.1 h
      subst hc
      have hzm : countCh '-' t = 0 :=
        countCh_eq_zero_of_all_digit (by decide) hall
      have hzd : countCh '.' t = 0 :=
        countCh_eq_zero_of_all_digit (by decide) hall
      obtain ⟨a, ha⟩ := List.exists_mem_of_ne_nil _ hne
      refine ⟨⟨⟨?_, ?_⟩, ?_⟩, a, List.mem_cons_of_mem _ ha, hall _ ha⟩
      · simp [countCh, hzm]
      · simp [countCh, hzd]
      · intro b hb
        rcases List.mem_cons.1 hb with hb | hb
        · simp [okChar, hb]
        · simp [okChar, hall _ hb]
    · rw [if_neg hc] at h
      obtain ⟨-, hall⟩ := pyIsdigit_iff.1 h
      have hallc : ∀ a ∈ c :: t, a.isDigit = true := hall
      have hzm : countCh '-' (c :: t) = 0 :=
        countCh_eq_zero_of_all_digit (by decide) hallc
      have hzd : countCh '.' (c :: t) = 0 :=
        countCh_eq_zero_of_all_digit (by decide) hallc
      refine ⟨⟨⟨by omega, by omega⟩, ?_⟩,
        c, List.mem_cons_self c t, hallc _ (List.mem_cons_self c t)⟩
      intro b hb
      simp [okChar, hallc _ hb]

/-- Claim C1: the Report File Decoder infers every cell exactly as the spec
says — empty becomes null, the integer pattern (optional leading minus,
digits) becomes an integer, the decimal pattern (optional minus, digits, at
most one dot) becomes a float falling back to the original string when the
numeric conversion fails, everything else is returned unchanged. -/
theorem cell_inference_matches_spec (v : Option PyStr) :
    inferCell v = specInferCell v := by
  cases v with
  | none => rfl
  | some value =>
    simp only [inferCell, specInferCell]
    by_cases he : value.isEmpty
    · simp [he]
    rw [if_neg he, if_neg he]
    by_cases hg : numericGuard value = true
    · have hdec : specDecPattern value = true := numericGuard_iff.1 hg
      by_cases hdot : '.' ∈ value
      · have hint : specIntPattern value = false := by
          by_contra hx
          rw [Bool.not_eq_false] at hx
          exact specIntPattern_no_dot hx hdot
        simp [hg, hdot, hint, hdec]
      · by_cases hip : specIntPattern value = true
        · simp [hg, hdot, hip, pyIntParse, pyIntAccepts_eq_specIntPattern]
        · rw [Bool.not_eq_true] at hip
          have hfa : pyFloatAccepts value = false :=
            (pyFloatAccepts_eq_of_no_dot hdot).trans hip
          simp [hg, hdot, hip, hdec, hfa, pyIntParse,
            pyIntAccepts_eq_specIntPattern]
    · rw [Bool.not_eq_true] at hg
      have hdec : specDecPattern value = false := by
        by_contra hx
        rw [Bool.not_eq_false] at hx
        rw [numericGuard_iff.2 hx] at hg
        simp at hg
      have hint : specIntPattern value = false := by
        by_contra hx
        rw [Bool.not_eq_false] at hx
        rw [specIntPattern_implies_dec hx] at hdec
        simp at hdec
      simp [hg, hint, hdec]

/-- Embeds Python `s.split(c)` for a one-character separator: split on every
occurrence, keeping empty pieces (`"".split(c) == [""]`). -/
def splitOnChar (c : Char) : PyStr → List PyStr
  | [] => [[]]
  | x :: xs =>
    if x = c then [] :: splitOnChar c xs
    else
      match splitOnChar c xs with
      | [] => [[x]]
      | h :: t => (x :: h) :: t

theorem splitOnChar_ne_nil (c : Char) (l : PyStr) : splitOnChar c l ≠ [] := by
  induction l with
  | nil => simp [splitOnChar]
  | cons x xs ih =>
    by_cases hx : x = c
    · simp [splitOnChar, hx]
    · simp only [splitOnChar, if_neg hx]
      cases h : splitOnChar c xs with
      | nil => simp
      | cons a t => simp

theorem length_splitOnChar (c : Char) (l : PyStr) :
    (splitOnChar c l).length = countCh c l + 1 := by
  induction l with
  | nil => simp [splitOnChar, countCh]
  | cons x xs ih =>
    by_cases hx : x = c
    · simp [splitOnChar, countCh, hx, ih, Nat.add_comm]
    · simp only [splitOnChar, if_neg hx, countCh, if_neg hx, Nat.zero_add]
      cases h : splitOnChar c xs with
      | nil => exact absurd h (splitOnChar_ne_nil c xs)
      | cons a t =>
        rw [h] at ih
        simpa using ih

/-- Embeds `format_date_for_api` (server.py lines 200-215): unpack
`date_str.split('-')` into three components; any other arity raises
`ValueError`, modelled as `none`. -/
def format_date_for_api (date_str : PyStr) : Option (PyStr × PyStr × PyStr) :=
  match splitOnChar '-' date_str with
  | [y, m, d] => some (y, m, d)
  | _ => none

/-- Characters stripped by Python `str.strip()` (ASCII whitespace). -/
def pyStrip (l : PyStr) : PyStr :=
  ((l.dropWhile Char.isWhitespace).reverse.dropWhile Char.isWhitespace).reverse

/-- Split a comma-separated string and trim each piece: embeds the Python
idiom `[x.strip() for x in s.split(',')]` used for ids, dimensions and
metrics. -/
def splitTrim (s : PyStr) : List PyStr := (splitOnChar ',' s).map pyStrip

/-- A dimensions/metrics argument: a comma-separated string or a list. -/
inductive StrOrList where
  | str (s : PyStr)
  | list (l : List PyStr)
deriving DecidableEq

/-- Embeds `prepare_dimensions_and_metrics` (lines 269-291) on one argument:
a string is split on commas with each piece stripped, a list passes through
unchanged. -/
def normalizeFields : StrOrList → List PyStr
  | .str s => splitTrim s
  | .list l => l

/-- An optional identifier argument of `prepare_filters`: absent (`None`),
a comma-separated string, or a list of strings. -/
inductive IdsInput where
  | absent
  | str (s : PyStr)
  | list (l : List PyStr)
deriving DecidableEq

/-- Python truthiness of an identifier argument: `None`, `""` and `[]` are
falsy. -/
def idsTruthy : IdsInput → Bool
  | .absent => false
  | .str s => !s.isEmpty
  | .list l => !l.isEmpty

/-- One filter clause `{"type": ..., "value": ...}`. -/
structure FilterClause where
  type : String
  value : PyStr
deriving DecidableEq

/-- One category block of `prepare_filters`: when the argument is truthy,
split-and-strip a string argument, then emit one clause per identifier with
the category's fixed type tag. -/
def categoryFilters (t : String) (inp : IdsInput) : List FilterClause :=
  if idsTruthy inp then
    (match inp with
     | .absent => []
     | .str s => splitTrim s
     | .list l => l).map (fun v => ⟨t, v⟩)
  else []

/-- Embeds `prepare_filters` (lines 218-266): the four categories in the
fixed order advertiser, campaign, insertion order, line item. -/
def prepare_filters (advertiser_ids campaign_ids insertion_order_ids
    line_item_ids : IdsInput) : List FilterClause :=
  categoryFilters "FILTER_ADVERTISER" advertiser_ids
    ++ categoryFilters "FILTER_MEDIA_PLAN" campaign_ids
    ++ categoryFilters "FILTER_INSERTION_ORDER" insertion_order_ids
    ++ categoryFilters "FILTER_LINE_ITEM" line_item_ids

theorem splitTrim_ne_nil (s : PyStr) : splitTrim s ≠ [] := by
  intro h
  exact splitOnChar_ne_nil ',' s (List.map_eq_nil_iff.1 h)

theorem categoryFilters_str_eq_list (t : String) {s : PyStr} (hs : s ≠ []) :
    categoryFilters t (.str s) = categoryFilters t (.list (splitTrim s)) := by
  simp [categoryFilters, idsTruthy, List.isEmpty_iff, hs, splitTrim_ne_nil s]

theorem categoryFilters_list (t : String) (l : List PyStr) :
    categoryFilters t (.list l) = l.map (fun v => ⟨t, v⟩) := by
  cases l with
  | nil => rfl
  | cons x xs => simp [categoryFilters, idsTruthy]

/-- One CSV source line as the default-dialect `csv.reader` yields it for
content without quote or CR characters: a blank line is the empty row, any
other line splits on commas. -/
def csvCells (line : PyStr) : List PyStr :=
  if line.isEmpty then [] else splitOnChar ',' line

/-- Rows of a CSV document: newline-separated lines, each split into cells.
Models `csv.reader(io.StringIO(content))` for content without quote or CR
characters. -/
def csvRows (content : PyStr) : List (List PyStr) :=
  (splitOnChar '\n' content).map csvCells

/-- One record as `csv.DictReader` builds it for a data row no longer than
the header: header names paired with the row cells in header order, missing
trailing cells filled with the `restval` default `None`.  (For duplicate
header names the Python `dict` keeps only the last binding; the claims are
stated for duplicate-free headers, where this association list agrees with
the `dict` including its insertion order.) -/
def dictZip (header row : List PyStr) : List (PyStr × Option PyStr) :=
  (header.zip row).map (fun p => (p.1, some p.2))
    ++ (header.drop row.length).map (fun h => (h, none))

/-- A decoded report row: column names paired with inferred cell values. -/
abbrev ReportRow := List (PyStr × PyVal)

/-- Embeds `parse_csv_to_json` (lines 167-197): iterate `csv.DictReader`
(header from the first row, blank rows skipped), infer each cell's type.
A data row longer than the header makes `DictReader` store the extra cells
as a list under its `restkey`, on which the cell inference code raises
`AttributeError`; that exception is modelled as `none`. -/
def parse_csv_to_json (content : PyStr) : Option (List ReportRow) :=
  match csvRows content with
  | [] => some []
  | header :: rest =>
    let dataRows := rest.filter (fun r => !r.isEmpty)
    if dataRows.all (fun r => r.length ≤ header.length) then
      some (dataRows.map (fun row =>
        (dictZip header row).map (fun p => (p.1, inferCell p.2))))
    else none

/-- The query object built by `dv_run_report` (lines 1270-1289). -/
structure QueryObj where
  title : String
  rangeKind : String
  customStartDate : PyStr × PyStr × PyStr
  customEndDate : PyStr × PyStr × PyStr
  format : String
  queryType : String
  groupBys : List PyStr
  filters : List FilterClause
  metrics : List PyStr
  frequency : String
deriving DecidableEq

/-- Embeds the `query_obj` construction of `dv_run_report`. -/
def build_query (report_name : String) (sd ed : PyStr × PyStr × PyStr)
    (dims mets : List PyStr) (filters : List FilterClause) : QueryObj :=
  ⟨report_name, "CUSTOM_DATES", sd, ed, "CSV", "STANDARD", dims, filters,
    mets, "ONE_TIME"⟩

/-- Response of `queries().create(...).execute()`: `none` in `queryId`
models a response dictionary without the `queryId` key (its access raises
`KeyError`). -/
structure CreateResp where
  queryId : Option String

/-- Response of `queries().run(...).execute()`.  Each `none` models the
corresponding key missing from the response dictionary. -/
structure RunResp where
  state : Option String
  message : Option String
  reportId : Option String
  gcsPath : Option String

/-- The remote Bid Manager system as an oracle: `get_service`, query
creation, synchronous run, and the report file download.  `Except` errors
model exceptions raised by the call, carrying `str(e)`. -/
structure Remote where
  getService : Except String Unit
  create : QueryObj → Except String CreateResp
  run : String → Except String RunResp
  download : String → Except String PyStr

/-- Remote operations performed by one `dv_run_report` call, in order. -/
inductive RemoteOp where
  | create (q : QueryObj)
  | run (queryId : String)
  | download (path : String)
deriving DecidableEq

/-- Result record of a tool call: `{"success": False, "error": ...}` with an
optional `query_id`, or `{"success": True, "data": ..., "metadata": ...}`. -/
structure RunMetadata where
  query_id : String
  report_id : String
  start_date : PyStr
  end_date : PyStr
  dimensions : List PyStr
  metrics : List PyStr
  filters : List FilterClause
  row_count : Nat
deriving DecidableEq

inductive ToolResult where
  | failure (error : String) (query_id : Option String)
  | success (data : List ReportRow) (meta : RunMetadata)
deriving DecidableEq

/-- Observable outcome of one `dv_run_report` call: the returned record, the
warnings logged, and the trace of remote operations invoked. -/
structure ToolCall where
  result : ToolResult
  warnings : List String
  trace : List RemoteOp
deriving DecidableEq

/-- `str(e)` of the `ValueError` raised when `date_str.split('-')` does not
unpack into three components. -/
def dateUnpackMsg : String := "ValueError: cannot unpack date components"

/-- `str(e)` of the `KeyError` for a missing `queryId` key. -/
def queryIdKeyMsg : String := "KeyError: queryId"

/-- `str(e)` of the `KeyError` for a missing state field. -/
def stateKeyMsg : String := "KeyError: state"

/-- `str(e)` of the `KeyError` for a missing `reportId` key. -/
def reportIdKeyMsg : String := "KeyError: reportId"

/-- `str(e)` of the `KeyError` for a missing `googleCloudStoragePath` key. -/
def gcsPathKeyMsg : String := "KeyError: googleCloudStoragePath"

/-- `str(e)` of the `AttributeError` raised by the cell inference code on the
`restkey` list of an over-long CSV row. -/
def restkeyAttrMsg : String := "AttributeError: list object has no attribute replace"

/-- The caution logged when no filters are given (line 1267). -/
def noFilterWarning : String :=
  "No filters specified. Report will include all data (may be very large)."

/-- Embeds `dv_run_report` (lines 1248-1344).  The single outer
`except Exception` clause of the source returns
`{"success": False, "error": str(e)}`; it is modelled by each raising step
returning that failure record directly.  Alongside the returned record the
embedding collects the logged warnings and the trace of remote calls. -/
def dv_run_report (R : Remote) (start_date end_date : PyStr)
    (dimensions metrics : StrOrList)
    (advertiser_ids campaign_ids insertion_order_ids line_item_ids : IdsInput)
    (report_name : String) : ToolCall :=
  match R.getService with
  | .error e => ⟨.failure e none, [], []⟩
  | .ok _ =>
  match format_date_for_api start_date with
  | none => ⟨.failure dateUnpackMsg none, [], []⟩
  | some sd =>
  match format_date_for_api end_date with
  | none => ⟨.failure dateUnpackMsg none, [], []⟩
  | some ed =>
  let dims := normalizeFields dimensions
  let mets := normalizeFields metrics
  let filters := prepare_filters advertiser_ids campaign_ids
    insertion_order_ids line_item_ids
  let warns := if filters.isEmpty then [noFilterWarning] else []
  let qobj := build_query report_name sd ed dims mets filters
  match R.create qobj with
  | .error e => ⟨.failure e none, warns, [.create qobj]⟩
  | .ok cresp =>
  match cresp.queryId with
  | none => ⟨.failure queryIdKeyMsg none, warns, [.create qobj]⟩
  | some qid =>
  match R.run qid with
  | .error e => ⟨.failure e none, warns, [.create qobj, .run qid]⟩
  | .ok rresp =>
  match rresp.state with
  | none => ⟨.failure stateKeyMsg none, warns, [.create qobj, .run qid]⟩
  | some st =>
  if st = "FAILED" then
    ⟨.failure ("Report generation failed: " ++ rresp.message.getD "Unknown error")
        (some qid), warns, [.create qobj, .run qid]⟩
  else
  match rresp.reportId with
  | none => ⟨.failure reportIdKeyMsg none, warns, [.create qobj, .run qid]⟩
  | some rid =>
  match rresp.gcsPath with
  | none => ⟨.failure gcsPathKeyMsg none, warns, [.create qobj, .run qid]⟩
  | some path =>
  match R.download path with
  | .error e => ⟨.failure e none, warns, [.create qobj, .run qid, .download path]⟩
  | .ok csv =>
  match parse_csv_to_json csv with
  | none => ⟨.failure restkeyAttrMsg none, warns,
      [.create qobj, .run qid, .download path]⟩
  | some rows =>
    ⟨.success rows ⟨qid, rid, start_date, end_date, dims, mets, filters,
        rows.length⟩, warns, [.create qobj, .run qid, .download path]⟩

/-- Python truthiness of an optional string parameter: `None` and `""` are
falsy and leave the key out of the request parameters. -/
def pyOptParam (o : Option String) : Option String :=
  match o with
  | none => none
  | some s => if s = "" then none else some s

/-- Request parameters of `dv_list_advertisers` (lines 342-348). -/
structure AdvListParams where
  partnerId : String
  pageSize : Int
  orderBy : Option String
deriving DecidableEq

/-- Request parameters of the four advertiser-scoped list tools
(`dv_list_campaigns`, `dv_list_insertion_orders`, `dv_list_line_items`,
`dv_list_creatives`). -/
structure EntityListParams where
  advertiserId : String
  pageSize : Int
  filter : Option String
  orderBy : Option String
deriving DecidableEq

/-- Embeds the `params` dictionary of `dv_list_advertisers`
(lines 342-348). -/
def dv_list_advertisers_request (partner_id : String) (page_size : Int)
    (order_by : Option String) : AdvListParams :=
  ⟨partner_id, min page_size 100, pyOptParam order_by⟩

/-- Embeds the `params` dictionary of `dv_list_campaigns` (lines 444-455). -/
def dv_list_campaigns_request (advertiser_id : String) (page_size : Int)
    (filter order_by : Option String) : EntityListParams :=
  ⟨advertiser_id, min page_size 100, pyOptParam filter, pyOptParam order_by⟩

/-- Embeds the `params` dictionary of `dv_list_insertion_orders`
(lines 619-630). -/
def dv_list_insertion_orders_request (advertiser_id : String)
    (page_size : Int) (filter order_by : Option String) : EntityListParams :=
  ⟨advertiser_id, min page_size 100, pyOptParam filter, pyOptParam order_by⟩

/-- Embeds the `params` dictionary of `dv_list_line_items` (lines 800-811). -/
def dv_list_line_items_request (advertiser_id : String) (page_size : Int)
    (filter order_by : Option String) : EntityListParams :=
  ⟨advertiser_id, min page_size 100, pyOptParam filter, pyOptParam order_by⟩

/-- Embeds the `params` dictionary of `dv_list_creatives` (lines 983-994). -/
def dv_list_creatives_request (advertiser_id : String) (page_size : Int)
    (filter order_by : Option String) : EntityListParams :=
  ⟨advertiser_id, min page_size 100, pyOptParam filter, pyOptParam order_by⟩

/-- A raw advertiser object of the remote response; each field models
`adv.get(key)`. -/
structure AdvEntity where
  advertiserId : Option String
  displayName : Option String
  partnerId : Option String
  entityStatus : Option String
  updateTime : Option String
deriving DecidableEq

/-- Response of `service.advertisers().list(**params).execute()`. -/
structure AdvListResp where
  advertisers : List AdvEntity
  nextPageToken : Option String
deriving DecidableEq

/-- The remote Display & Video entity service as an oracle for the
advertisers list tool. -/
structure AdvRemote where
  getService : Except String Unit
  list : AdvListParams → Except String AdvListResp

/-- Result record of `dv_list_advertisers`: the structured success of
lines 368-374, or a structured failure of lines 376-397 carrying the error
text and an optional classified hint message. -/
inductive AdvResult where
  | ok (advertisers : List AdvEntity) (count : Nat) (partner_id : String)
      (next_page_token : Option String)
  | err (error : String) (message : Option String)
deriving DecidableEq

/-- Whether `needle` starts `hay`. -/
def listStarts (needle hay : PyStr) : Bool :=
  match needle, hay with
  | [], _ => true
  | _ :: _, [] => false
  | n :: ns, h :: hs => n = h && listStarts ns hs

/-- Embeds Python `needle in hay` for strings. -/
def listHasSub (needle hay : PyStr) : Bool :=
  match hay with
  | [] => needle.isEmpty
  | _ :: hs => listStarts needle hay || listHasSub needle hs

/-- The hint classification of the `except` clause of `dv_list_advertisers`
(lines 380-397): substring match for permission and not-found errors. -/
def classifyAdvError (partner_id : String) (e : String) : AdvResult :=
  let low := e.data.map Char.toLower
  if listHasSub (pstr "permission") low || listHasSub (pstr "403") e.data then
    .err e (some ("Permission denied. Ensure your service account has "
      ++ "Display & Video 360 API access and is linked to the partner account."))
  else if listHasSub (pstr "not found") low || listHasSub (pstr "404") e.data then
    .err e (some ("Partner ID " ++ partner_id
      ++ " not found. Double-check the partner ID."))
  else .err e none

/-- Embeds `dv_list_advertisers` (lines 294-397): partner-id fallback to the
environment default, the clamped request parameters, the remote call, and
the response formatting (field renaming is value-preserving and modelled by
returning the entity list unchanged). -/
def dv_list_advertisers (R : AdvRemote) (defaultPartnerId : Option String)
    (partner_id : Option String) (page_size : Int)
    (order_by : Option String) : AdvResult :=
  match (match partner_id with | some p => some p | none => defaultPartnerId) with
  | none => .err "No partner_id provided and DV360_PARTNER_ID not set in .env file"
      (some "Either provide partner_id parameter or set DV360_PARTNER_ID in your .env file")
  | some pid =>
    match R.getService with
    | .error e => classifyAdvError pid e
    | .ok _ =>
      match R.list (dv_list_advertisers_request pid page_size order_by) with
      | .error e => classifyAdvError pid e
      | .ok resp => .ok resp.advertisers resp.advertisers.length pid
          resp.nextPageToken

theorem dictZip_of_length_eq {header row : List PyStr}
    (h : row.length = header.length) :
    dictZip header row = (header.zip row).map (fun p => (p.1, some p.2)) := by
  have hd : header.drop row.length = [] := by
    rw [h]
    exact List.drop_length header
  rw [dictZip, hd]
  simp

/-- Claim C5: the Date Formatter succeeds exactly on strings with exactly
two hyphens (three split components) and returns the hyphen-separated
substrings verbatim; on any other input it throws. -/
theorem format_date_exactly_two_hyphens (s : PyStr) :
    ((format_date_for_api s).isSome ↔ countCh '-' s = 2) ∧
    (∀ y m d, format_date_for_api s = some (y, m, d) ↔
      splitOnChar '-' s = [y, m, d]) := by
  have hlen := length_splitOnChar '-' s
  constructor
  · rw [format_date_for_api]
    rcases hsp : splitOnChar '-' s with _ | ⟨y, _ | ⟨m, _ | ⟨d, _ | ⟨e, t⟩⟩⟩⟩ <;>
      rw [hsp] at hlen
    all_goals simp_all
    all_goals omega
  · intro y m d
    rw [format_date_for_api]
    rcases hsp : splitOnChar '-' s with _ | ⟨a, _ | ⟨b, _ | ⟨e, _ | ⟨f, t⟩⟩⟩⟩ <;>
      simp_all

/-- Claim C6: for each identifier category, a comma-separated string yields
exactly the clauses of the corresponding list of trimmed identifiers; list
input passes through untrimmed, one clause per identifier in input order
with the category's fixed type; e.g. `"1,2, 3"` splits and trims to
`["1","2","3"]`. -/
theorem prepare_filters_string_list_agree (s : PyStr) (hs : s ≠ []) :
    (∀ c i l, prepare_filters (.str s) c i l
        = prepare_filters (.list (splitTrim s)) c i l) ∧
    (∀ a i l, prepare_filters a (.str s) i l
        = prepare_filters a (.list (splitTrim s)) i l) ∧
    (∀ a c l, prepare_filters a c (.str s) l
        = prepare_filters a c (.list (splitTrim s)) l) ∧
    (∀ a c i, prepare_filters a c i (.str s)
        = prepare_filters a c i (.list (splitTrim s))) ∧
    (∀ t l, categoryFilters t (.list l) = l.map (fun v => ⟨t, v⟩)) ∧
    splitTrim (pstr "1,2, 3") = [pstr "1", pstr "2", pstr "3"] := by
  refine ⟨?_, ?_, ?_, ?_, categoryFilters_list, by decide⟩ <;>
    · intro a b c
      simp [prepare_filters, categoryFilters_str_eq_list _ hs]

/-- Witness for C6 at the example input `"1,2, 3"`. -/
theorem prepare_filters_string_list_agree_witness :
    pstr "1,2, 3" ≠ [] ∧
    prepare_filters (.str (pstr "1,2, 3")) .absent .absent .absent
      = prepare_filters (.list (splitTrim (pstr "1,2, 3")))
          .absent .absent .absent :=
  ⟨by decide,
    (prepare_filters_string_list_agree (pstr "1,2, 3") (by decide)).1
      .absent .absent .absent⟩

/-- Claim C7: on a CSV with a duplicate-free header and N data rows, each as
long as the header and none blank, the decoder yields exactly N records in
row order, each mapping the header's column names to the row's inferred
cells, and the materialized sequence's length is the row count. -/
theorem parse_csv_row_structure (content : PyStr) (header : List PyStr)
    (rows : List (List PyStr))
    (hsplit : csvRows content = header :: rows)
    (_hnodup : header.Nodup)
    (hlen : ∀ r ∈ rows, r.length = header.length)
    (hne : ∀ r ∈ rows, r ≠ []) :
    parse_csv_to_json content
      = some (rows.map (fun row =>
          (header.zip row).map (fun p => (p.1, inferCell (some p.2))))) ∧
    ∀ out, parse_csv_to_json content = some out → out.length = rows.length := by
  have hfilter : rows.filter (fun r => !r.isEmpty) = rows := by
    apply List.filter_eq_self.2
    intro r hr
    simp [List.isEmpty_iff, hne r hr]
  have heq : parse_csv_to_json content
      = some (rows.map (fun row =>
          (header.zip row).map (fun p => (p.1, inferCell (some p.2))))) := by
    rw [parse_csv_to_json, hsplit]
    simp only [hfilter]
    rw [if_pos]
    · congr 1
      apply List.map_congr_left
      intro r hr
      rw [dictZip_of_length_eq (hlen r hr), List.map_map]
      rfl
    · rw [List.all_eq_true]
      intro r hr
      simp [hlen r hr]
  refine ⟨heq, fun out hout => ?_⟩
  rw [heq] at hout
  simp only [Option.some_inj] at hout
  rw [← hout, List.length_map]

/-- Witness for C7 at the two-row CSV `a,b\n1,2.5\nx,` . -/
theorem parse_csv_row_structure_witness :
    csvRows (pstr "a,b\n1,2.5\nx,")
      = [pstr "a", pstr "b"] :: [[pstr "1", pstr "2.5"], [pstr "x", pstr ""]] ∧
    parse_csv_to_json (pstr "a,b\n1,2.5\nx,")
      = some [[(pstr "a", PyVal.vint 1), (pstr "b", PyVal.vfloat (pstr "2.5"))],
          [(pstr "a", PyVal.vstr (pstr "x")), (pstr "b", PyVal.vnone)]] := by
  refine ⟨by decide, ?_⟩
  have h := parse_csv_row_structure (pstr "a,b\n1,2.5\nx,")
    [pstr "a", pstr "b"] [[pstr "1", pstr "2.5"], [pstr "x", pstr ""]]
    (by decide) (by decide) (by decide) (by decide)
  rw [h.1]
  decide

/-- Claim C2: when the remote run reports terminal state FAILED with message
m, the tool returns the structured failure
`Report generation failed: m` with the submitted query id and no exception;
a missing message field yields `Unknown error`. -/
theorem run_report_failed_state (R : Remote) (sdt edt : PyStr)
    (dims mets : StrOrList) (a c i l : IdsInput) (name : String)
    (sd ed : PyStr × PyStr × PyStr) (cresp : CreateResp) (qid : String)
    (rresp : RunResp)
    (h1 : R.getService = .ok ())
    (h2 : format_date_for_api sdt = some sd)
    (h3 : format_date_for_api edt = some ed)
    (h4 : R.create (build_query name sd ed (normalizeFields dims)
        (normalizeFields mets) (prepare_filters a c i l)) = .ok cresp)
    (h5 : cresp.queryId = some qid)
    (h6 : R.run qid = .ok rresp)
    (h7 : rresp.state = some "FAILED") :
    (dv_run_report R sdt edt dims mets a c i l name).result
      = .failure ("Report generation failed: "
          ++ rresp.message.getD "Unknown error") (some qid) := by
  simp only [dv_run_report, h1, h2, h3, h4, h5, h6, h7]
  simp

/-- Concrete remote oracle whose run reports FAILED with message
"quota exceeded" (end-to-end scenario B). -/
def failedRemote : Remote :=
  ⟨.ok (), fun _ => .ok ⟨some "q1"⟩,
    fun _ => .ok ⟨some "FAILED", some "quota exceeded", none, none⟩,
    fun _ => .error "not reached"⟩

/-- Witness for C2 at scenario B. -/
theorem run_report_failed_state_witness :
    (dv_run_report failedRemote (pstr "2025-01-01") (pstr "2025-01-31")
        (.list [pstr "FILTER_DATE"]) (.list [pstr "METRIC_IMPRESSIONS"])
        (.str (pstr "123")) .absent .absent .absent "MCP Report").result
      = .failure "Report generation failed: quota exceeded" (some "q1") := by
  have h := run_report_failed_state failedRemote (pstr "2025-01-01")
    (pstr "2025-01-31") (.list [pstr "FILTER_DATE"])
    (.list [pstr "METRIC_IMPRESSIONS"]) (.str (pstr "123"))
    .absent .absent .absent "MCP Report"
    ((pstr "2025"), (pstr "01"), (pstr "01"))
    ((pstr "2025"), (pstr "01"), (pstr "31"))
    ⟨some "q1"⟩ "q1" ⟨some "FAILED", some "quota exceeded", none, none⟩
    rfl (by decide) (by decide) rfl rfl rfl rfl
  rw [h]
  decide

/-- Claim C4: when the remote run succeeds, the tool returns the decoded rows
with metadata echoing the query id, report id, the date strings as given,
the normalized dimension and metric lists, the built filter clauses, and the
decoded row count. -/
theorem run_report_success (R : Remote) (sdt edt : PyStr)
    (dims mets : StrOrList) (a c i l : IdsInput) (name : String)
    (sd ed : PyStr × PyStr × PyStr) (cresp : CreateResp) (qid : String)
    (rresp : RunResp) (st rid path : String) (csv : PyStr)
    (rows : List ReportRow)
    (h1 : R.getService = .ok ())
    (h2 : format_date_for_api sdt = some sd)
    (h3 : format_date_for_api edt = some ed)
    (h4 : R.create (build_query name sd ed (normalizeFields dims)
        (normalizeFields mets) (prepare_filters a c i l)) = .ok cresp)
    (h5 : cresp.queryId = some qid)
    (h6 : R.run qid = .ok rresp)
    (h7 : rresp.state = some st)
    (h8 : st ≠ "FAILED")
    (h9 : rresp.reportId = some rid)
    (h10 : rresp.gcsPath = some path)
    (h11 : R.download path = .ok csv)
    (h12 : parse_csv_to_json csv = some rows) :
    (dv_run_report R sdt edt dims mets a c i l name).result
      = .success rows ⟨qid, rid, sdt, edt, normalizeFields dims,
          normalizeFields mets, prepare_filters a c i l, rows.length⟩ := by
  simp only [dv_run_report, h1, h2, h3, h4, h5, h6, h7, h9, h10, h11, h12]
  simp [h8]

/-- Concrete remote oracle for end-to-end scenario A: the run succeeds and
the downloaded report is the two-row CSV
`date,impressions\n2025-01-01,100\n2025-01-02,200`. -/
def successRemote : Remote :=
  ⟨.ok (), fun _ => .ok ⟨some "q1"⟩,
    fun _ => .ok ⟨some "DONE", none, some "r1", some "gs"⟩,
    fun _ => .ok (pstr "date,impressions\n2025-01-01,100\n2025-01-02,200")⟩

/-- Witness for C4 at scenario A: the decoded data is
`[{date: "2025-01-01", impressions: 100}, {date: "2025-01-02",
impressions: 200}]` and the row count is 2. -/
theorem run_report_success_witness :
    (dv_run_report successRemote (pstr "2025-01-01") (pstr "2025-01-31")
        (.list [pstr "FILTER_DATE"]) (.list [pstr "METRIC_IMPRESSIONS"])
        (.str (pstr "123")) .absent .absent .absent "MCP Report").result
      = .success
          [[(pstr "date", PyVal.vstr (pstr "2025-01-01")),
            (pstr "impressions", PyVal.vint 100)],
           [(pstr "date", PyVal.vstr (pstr "2025-01-02")),
            (pstr "impressions", PyVal.vint 200)]]
          ⟨"q1", "r1", pstr "2025-01-01", pstr "2025-01-31",
            [pstr "FILTER_DATE"], [pstr "METRIC_IMPRESSIONS"],
            [⟨"FILTER_ADVERTISER", pstr "123"⟩], 2⟩ := by
  have h := run_report_success successRemote (pstr "2025-01-01")
    (pstr "2025-01-31") (.list [pstr "FILTER_DATE"])
    (.list [pstr "METRIC_IMPRESSIONS"]) (.str (pstr "123"))
    .absent .absent .absent "MCP Report"
    ((pstr "2025"), (pstr "01"), (pstr "01"))
    ((pstr "2025"), (pstr "01"), (pstr "31"))
    ⟨some "q1"⟩ "q1" ⟨some "DONE", none, some "r1", some "gs"⟩
    "DONE" "r1" "gs"
    (pstr "date,impressions\n2025-01-01,100\n2025-01-02,200")
    [[(pstr "date", PyVal.vstr (pstr "2025-01-01")),
      (pstr "impressions", PyVal.vint 100)],
     [(pstr "date", PyVal.vstr (pstr "2025-01-02")),
      (pstr "impressions", PyVal.vint 200)]]
    rfl (by decide) (by decide) rfl rfl rfl rfl (by decide) rfl rfl rfl
    (by decide)
  rw [h]
  decide

/-- Claim C3: no exception propagates out of `dv_run_report` — the result is
always a tagged success or failure record, and an exception raised by any
stage (service acquisition, date formatting, submission, the run call,
download, decoding) that is not already converted into a structured result
is returned as `success: false` with the exception's message. -/
theorem run_report_no_uncaught (R : Remote) (sdt edt : PyStr)
    (dims mets : StrOrList) (a c i l : IdsInput) (name : String) :
    ((∃ d m, (dv_run_report R sdt edt dims mets a c i l name).result
        = .success d m)
      ∨ (∃ e q, (dv_run_report R sdt edt dims mets a c i l name).result
        = .failure e q)) ∧
    (∀ e, R.getService = .error e →
      (dv_run_report R sdt edt dims mets a c i l name).result
        = .failure e none) ∧
    (R.getService = .ok () → format_date_for_api sdt = none →
      (dv_run_report R sdt edt dims mets a c i l name).result
        = .failure dateUnpackMsg none) ∧
    (∀ sd, R.getService = .ok () → format_date_for_api sdt = some sd →
      format_date_for_api edt = none →
      (dv_run_report R sdt edt dims mets a c i l name).result
        = .failure dateUnpackMsg none) ∧
    (∀ sd ed e, R.getService = .ok () → format_date_for_api sdt = some sd →
      format_date_for_api edt = some ed →
      R.create (build_query name sd ed (normalizeFields dims)
        (normalizeFields mets) (prepare_filters a c i l)) = .error e →
      (dv_run_report R sdt edt dims mets a c i l name).result
        = .failure e none) ∧
    (∀ sd ed cresp qid e, R.getService = .ok () →
      format_date_for_api sdt = some sd → format_date_for_api edt = some ed →
      R.create (build_query name sd ed (normalizeFields dims)
        (normalizeFields mets) (prepare_filters a c i l)) = .ok cresp →
      cresp.queryId = some qid → R.run qid = .error e →
      (dv_run_report R sdt edt dims mets a c i l name).result
        = .failure e none) ∧
    (∀ sd ed cresp qid rresp st rid path e, R.getService = .ok () →
      format_date_for_api sdt = some sd → format_date_for_api edt = some ed →
      R.create (build_query name sd ed (normalizeFields dims)
        (normalizeFields mets) (prepare_filters a c i l)) = .ok cresp →
      cresp.queryId = some qid → R.run qid = .ok rresp →
      rresp.state = some st → st ≠ "FAILED" → rresp.reportId = some rid →
      rresp.gcsPath = some path → R.download path = .error e →
      (dv_run_report R sdt edt dims mets a c i l name).result
        = .failure e none) ∧
    (∀ sd ed cresp qid rresp st rid path csv, R.getService = .ok () →
      format_date_for_api sdt = some sd → format_date_for_api edt = some ed →
      R.create (build_query name sd ed (normalizeFields dims)
        (normalizeFields mets) (prepare_filters a c i l)) = .ok cresp →
      cresp.queryId = some qid → R.run qid = .ok rresp →
      rresp.state = some st → st ≠ "FAILED" → rresp.reportId = some rid →
      rresp.gcsPath = some path → R.download path = .ok csv →
      parse_csv_to_json csv = none →
      (dv_run_report R sdt edt dims mets a c i l name).result
        = .failure restkeyAttrMsg none) := by
  refine ⟨?_, ?_, ?_, ?_, ?_, ?_, ?_, ?_⟩
  · cases h : (dv_run_report R sdt edt dims mets a c i l name).result with
    | failure e q => exact Or.inr ⟨e, q, rfl⟩
    | success d m => exact Or.inl ⟨d, m, rfl⟩
  · intro e h1
    simp only [dv_run_report, h1]
  · intro h1 h2
    simp only [dv_run_report, h1, h2]
  · intro sd h1 h2 h3
    simp only [dv_run_report, h1, h2, h3]
  · intro sd ed e h1 h2 h3 h4
    simp only [dv_run_report, h1, h2, h3, h4]
  · intro sd ed cresp qid e h1 h2 h3 h4 h5 h6
    simp only [dv_run_report, h1, h2, h3, h4, h5, h6]
  · intro sd ed cresp qid rresp st rid path e h1 h2 h3 h4 h5 h6 h7 h8 h9
      h10 h11
    simp only [dv_run_report, h1, h2, h3, h4, h5, h6, h7, h9, h10, h11]
    simp [h8]
  · intro sd ed cresp qid rresp st rid path csv h1 h2 h3 h4 h5 h6 h7 h8 h9
      h10 h11 h12
    simp only [dv_run_report, h1, h2, h3, h4, h5, h6, h7, h9, h10, h11, h12]
    simp [h8]

/-- Concrete remote oracle whose download raises. -/
def downloadFailRemote : Remote :=
  ⟨.ok (), fun _ => .ok ⟨some "q1"⟩,
    fun _ => .ok ⟨some "DONE", none, some "r1", some "gs"⟩,
    fun _ => .error "network unreachable"⟩

/-- Concrete remote oracle whose service acquisition raises. -/
def serviceFailRemote : Remote :=
  ⟨.error "no credentials", fun _ => .ok ⟨some "q1"⟩,
    fun _ => .ok ⟨some "DONE", none, some "r1", some "gs"⟩,
    fun _ => .ok []⟩

/-- Concrete remote oracle whose query creation raises and whose download
returns a CSV with a data row longer than its header. -/
def createFailRemote : Remote :=
  ⟨.ok (), fun _ => .error "quota exhausted",
    fun _ => .error "unused", fun _ => .ok []⟩

/-- Concrete remote oracle whose run call raises. -/
def runFailRemote : Remote :=
  ⟨.ok (), fun _ => .ok ⟨some "q1"⟩, fun _ => .error "backend timeout",
    fun _ => .ok []⟩

/-- Concrete remote oracle whose downloaded CSV has a data row longer than
the header, making the decoder raise. -/
def badCsvRemote : Remote :=
  ⟨.ok (), fun _ => .ok ⟨some "q1"⟩,
    fun _ => .ok ⟨some "DONE", none, some "r1", some "gs"⟩,
    fun _ => .ok (pstr "a\n1,2")⟩

/-- Witness for C3: each failure stage, exercised at a concrete input. -/
theorem run_report_no_uncaught_witness :
    (dv_run_report serviceFailRemote (pstr "2025-01-01") (pstr "2025-01-31")
        (.list []) (.list []) .absent .absent .absent .absent "MCP Report").result
      = .failure "no credentials" none ∧
    (dv_run_report downloadFailRemote (pstr "x") (pstr "2025-01-31")
        (.list []) (.list []) .absent .absent .absent .absent "MCP Report").result
      = .failure dateUnpackMsg none ∧
    (dv_run_report downloadFailRemote (pstr "2025-01-01") (pstr "x")
        (.list []) (.list []) .absent .absent .absent .absent "MCP Report").result
      = .failure dateUnpackMsg none ∧
    (dv_run_report createFailRemote (pstr "2025-01-01") (pstr "2025-01-31")
        (.list []) (.list []) .absent .absent .absent .absent "MCP Report").result
      = .failure "quota exhausted" none ∧
    (dv_run_report runFailRemote (pstr "2025-01-01") (pstr "2025-01-31")
        (.list []) (.list []) .absent .absent .absent .absent "MCP Report").result
      = .failure "backend timeout" none ∧
    (dv_run_report downloadFailRemote (pstr "2025-01-01") (pstr "2025-01-31")
        (.list []) (.list []) .absent .absent .absent .absent "MCP Report").result
      = .failure "network unreachable" none ∧
    (dv_run_report badCsvRemote (pstr "2025-01-01") (pstr "2025-01-31")
        (.list []) (.list []) .absent .absent .absent .absent "MCP Report").result
      = .failure restkeyAttrMsg none := by
  refine ⟨?_, ?_, ?_, ?_, ?_, ?_, ?_⟩
  · exact (run_report_no_uncaught serviceFailRemote (pstr "2025-01-01")
      (pstr "2025-01-31") (.list []) (.list []) .absent .absent .absent
      .absent "MCP Report").2.1 "no credentials" rfl
  · exact (run_report_no_uncaught downloadFailRemote (pstr "x")
      (pstr "2025-01-31") (.list []) (.list []) .absent .absent .absent
      .absent "MCP Report").2.2.1 rfl (by decide)
  · exact (run_report_no_uncaught downloadFailRemote (pstr "2025-01-01")
      (pstr "x") (.list []) (.list []) .absent .absent .absent
      .absent "MCP Report").2.2.2.1 ((pstr "2025"), (pstr "01"), (pstr "01")) rfl (by decide) (by decide)
  · exact (run_report_no_uncaught createFailRemote (pstr "2025-01-01")
      (pstr "2025-01-31") (.list []) (.list []) .absent .absent .absent
      .absent "MCP Report").2.2.2.2.1 ((pstr "2025"), (pstr "01"), (pstr "01")) ((pstr "2025"), (pstr "01"), (pstr "31")) "quota exhausted" rfl (by decide)
      (by decide) rfl
  · exact (run_report_no_uncaught runFailRemote (pstr "2025-01-01")
      (pstr "2025-01-31") (.list []) (.list []) .absent .absent .absent
      .absent "MCP Report").2.2.2.2.2.1 ((pstr "2025"), (pstr "01"), (pstr "01")) ((pstr "2025"), (pstr "01"), (pstr "31")) ⟨some "q1"⟩ "q1"
      "backend timeout" rfl (by decide) (by decide) rfl rfl rfl
  · exact (run_report_no_uncaught downloadFailRemote (pstr "2025-01-01")
      (pstr "2025-01-31") (.list []) (.list []) .absent .absent .absent
      .absent "MCP Report").2.2.2.2.2.2.1 ((pstr "2025"), (pstr "01"), (pstr "01")) ((pstr "2025"), (pstr "01"), (pstr "31")) ⟨some "q1"⟩ "q1"
      ⟨some "DONE", none, some "r1", some "gs"⟩ "DONE" "r1" "gs"
      "network unreachable" rfl (by decide) (by decide) rfl rfl rfl rfl
      (by decide) rfl rfl rfl
  · exact (run_report_no_uncaught badCsvRemote (pstr "2025-01-01")
      (pstr "2025-01-31") (.list []) (.list []) .absent .absent .absent
      .absent "MCP Report").2.2.2.2.2.2.2 ((pstr "2025"), (pstr "01"), (pstr "01")) ((pstr "2025"), (pstr "01"), (pstr "31")) ⟨some "q1"⟩ "q1"
      ⟨some "DONE", none, some "r1", some "gs"⟩ "DONE" "r1" "gs"
      (pstr "a\n1,2") rfl (by decide) (by decide) rfl rfl rfl rfl
      (by decide) rfl rfl rfl (by decide)

/-- Claim C8: with all four identifier inputs absent the Filter Builder
returns no clauses, and `dv_run_report` still submits the query with an
empty filters list, emits the caution, and raises nothing — the call
proceeds to its normal tagged outcome. -/
theorem run_report_empty_filters (R : Remote) (sdt edt : PyStr)
    (dims mets : StrOrList) (name : String) (sd ed : PyStr × PyStr × PyStr)
    (h1 : R.getService = .ok ())
    (h2 : format_date_for_api sdt = some sd)
    (h3 : format_date_for_api edt = some ed) :
    prepare_filters .absent .absent .absent .absent = [] ∧
    (dv_run_report R sdt edt dims mets .absent .absent .absent .absent
        name).warnings = [noFilterWarning] ∧
    (∃ rest, (dv_run_report R sdt edt dims mets .absent .absent .absent
        .absent name).trace
      = .create (build_query name sd ed (normalizeFields dims)
          (normalizeFields mets) []) :: rest) ∧
    ((∃ d m, (dv_run_report R sdt edt dims mets .absent .absent .absent
        .absent name).result = .success d m)
      ∨ (∃ e q, (dv_run_report R sdt edt dims mets .absent .absent .absent
        .absent name).result = .failure e q)) := by
  refine ⟨rfl, ?_, ?_, ?_⟩
  · simp only [dv_run_report, h1, h2, h3]
    repeat' split
    all_goals first
      | rfl
      | simp_all [prepare_filters, categoryFilters, idsTruthy]
  · simp only [dv_run_report, h1, h2, h3]
    repeat' split
    all_goals first
      | exact ⟨_, rfl⟩
      | simp_all [prepare_filters, categoryFilters, idsTruthy]
  · cases h : (dv_run_report R sdt edt dims mets .absent .absent .absent
        .absent name).result with
    | failure e q => exact Or.inr ⟨e, q, rfl⟩
    | success d m => exact Or.inl ⟨d, m, rfl⟩

/-- Witness for C8: scenario C at a concrete successful remote. -/
theorem run_report_empty_filters_witness :
    (dv_run_report successRemote (pstr "2025-01-01") (pstr "2025-01-31")
        (.list [pstr "FILTER_DATE"]) (.list [pstr "METRIC_IMPRESSIONS"])
        .absent .absent .absent .absent "MCP Report").warnings
      = [noFilterWarning] :=
  (run_report_empty_filters successRemote (pstr "2025-01-01")
    (pstr "2025-01-31") (.list [pstr "FILTER_DATE"])
    (.list [pstr "METRIC_IMPRESSIONS"]) "MCP Report"
    ((pstr "2025"), (pstr "01"), (pstr "01"))
    ((pstr "2025"), (pstr "01"), (pstr "31"))
    rfl (by decide) (by decide)).2.1

/-- Stub remote used for the C9 trace statements. -/
def stubRemote : Remote :=
  ⟨.ok (), fun _ => .ok ⟨some "q"⟩,
    fun _ => .ok ⟨some "DONE", none, some "r", some "g"⟩, fun _ => .ok []⟩

/-- Counterexample to claim C9 as stated: a call whose start date does not
split into three components performs zero remote query submissions (the
trace is empty), not exactly one. -/
theorem run_report_single_submission_counterexample :
    (dv_run_report stubRemote (pstr "20250101") (pstr "2025-01-31")
        (.list [pstr "FILTER_DATE"]) (.list [pstr "METRIC_IMPRESSIONS"])
        .absent .absent .absent .absent "MCP Report").trace = [] := by
  decide

/-- Claim C9 as amended: every call performs at most one submission, at most
one run and at most one download, in that strict order (the trace is a
prefix of submission, run, download), and performs exactly one submission
whenever service acquisition and both date formattings succeed. -/
theorem run_report_trace_shape (R : Remote) (sdt edt : PyStr)
    (dims mets : StrOrList) (a c i l : IdsInput) (name : String) :
    (∃ q qid p n, n ≤ 3 ∧
      (dv_run_report R sdt edt dims mets a c i l name).trace
        = [RemoteOp.create q, RemoteOp.run qid, RemoteOp.download p].take n) ∧
    (R.getService = .ok () → ∀ sd ed, format_date_for_api sdt = some sd →
      format_date_for_api edt = some ed →
      ∃ q rest, (dv_run_report R sdt edt dims mets a c i l name).trace
        = RemoteOp.create q :: rest) := by
  constructor
  · simp only [dv_run_report]
    repeat' split
    all_goals first
      | exact ⟨build_query "" ([], [], []) ([], [], []) [] [] [], "", "", 0,
          by omega, rfl⟩
      | exact ⟨_, "", "", 1, by omega, rfl⟩
      | exact ⟨_, _, "", 2, by omega, rfl⟩
      | exact ⟨_, _, _, 3, by omega, rfl⟩
  · intro hs sd ed hsd hed
    simp only [dv_run_report, hs, hsd, hed]
    repeat' split
    all_goals exact ⟨_, _, rfl⟩

/-- Witness for the amended C9 at a concrete remote. -/
theorem run_report_trace_shape_witness :
    ∃ q qid p n, n ≤ 3 ∧
      (dv_run_report stubRemote (pstr "2025-01-01") (pstr "2025-01-31")
          (.list [pstr "FILTER_DATE"]) (.list [pstr "METRIC_IMPRESSIONS"])
          .absent .absent .absent .absent "MCP Report").trace
        = [RemoteOp.create q, RemoteOp.run qid, RemoteOp.download p].take n :=
  (run_report_trace_shape stubRemote (pstr "2025-01-01") (pstr "2025-01-31")
    (.list [pstr "FILTER_DATE"]) (.list [pstr "METRIC_IMPRESSIONS"])
    .absent .absent .absent .absent "MCP Report").1

/-- Claim C10: every entity-list tool sends `pageSize = min(page_size, 100)`
in its remote request, so a request for more than 100 items per page is
silently clamped to 100 (the call proceeds exactly as a request for 100)
rather than rejected. -/
theorem list_tools_page_size_clamped (page_size : Int) :
    (∀ pid ob, (dv_list_advertisers_request pid page_size ob).pageSize
        = min page_size 100) ∧
    (∀ aid f ob, (dv_list_campaigns_request aid page_size f ob).pageSize
        = min page_size 100) ∧
    (∀ aid f ob, (dv_list_insertion_orders_request aid page_size f ob).pageSize
        = min page_size 100) ∧
    (∀ aid f ob, (dv_list_line_items_request aid page_size f ob).pageSize
        = min page_size 100) ∧
    (∀ aid f ob, (dv_list_creatives_request aid page_size f ob).pageSize
        = min page_size 100) ∧
    (100 < page_size → ∀ R dflt pid ob,
      dv_list_advertisers R dflt (some pid) page_size ob
        = dv_list_advertisers R dflt (some pid) 100 ob) := by
  refine ⟨fun _ _ => rfl, fun _ _ _ => rfl, fun _ _ _ => rfl,
    fun _ _ _ => rfl, fun _ _ _ => rfl, ?_⟩
  intro h R dflt pid ob
  have hmin : min page_size 100 = min (100 : Int) 100 := by omega
  simp only [dv_list_advertisers, dv_list_advertisers_request, hmin]

/-- Stub entity remote used for the C10 witness. -/
def stubAdvRemote : AdvRemote := ⟨.ok (), fun _ => .ok ⟨[], none⟩⟩

/-- Witness for C10 at `page_size = 250`: the clamp fires. -/
theorem list_tools_page_size_clamped_witness :
    (dv_list_advertisers_request "p1" 250 none).pageSize = min 250 100 ∧
    dv_list_advertisers stubAdvRemote none (some "p1") 250 none
      = dv_list_advertisers stubAdvRemote none (some "p1") 100 none :=
  ⟨(list_tools_page_size_clamped 250).1 "p1" none,
    (list_tools_page_size_clamped 250).2.2.2.2.2 (by omega) stubAdvRemote
      none "p1" none⟩
